import Mathlib

/-!
Shallow embedding of `webp-animator` (`src/lib.rs`): a builder that assembles
an animated WebP container from pre-encoded `VP8 `/`VP8L` frame payloads.

Modelling conventions:
- Bytes are `Nat` values (kept < 256 by construction of the encoders).
- `u32`/`u16` machine arithmetic is modelled on `Nat` with an explicit
  `% 2^32` (resp. `% 2^16`) where the Rust code can overflow or truncate
  (release-mode wrapping semantics); values of `u32` parameters carry
  side hypotheses `< 2^32` in theorems where the range matters.
- Fallible operations return `Except EncodingError`; a Rust panic
  (out-of-range slice index, the `assert!` inside `u24_bytes`) is
  modelled as `Option.none` wrapped around the result.
- `Vec::write_all` never fails, so in-memory buffer writes are pure list
  appends; the final `write` to a sink is modelled as producing the byte
  list (the `Io` error variant of the source is therefore unreachable in
  the model and omitted from `EncodingError`).
-/

/-- The error enum of `src/lib.rs` (`EncodingError`), without the `Io`
variant, which only wraps sink failures during `write` and cannot arise in
the pure model. -/
inductive EncodingError where
  | InvalidDimensions
  | InvalidDuration
  | UnrecognizedImage
  deriving DecidableEq, Repr

/-- `struct FrameRect` from `src/lib.rs`: the per-frame rectangle in
absolute pixel units. -/
structure FrameRect where
  x : Nat
  y : Nat
  width : Nat
  height : Nat
  deriving DecidableEq, Repr

/-- `struct Params` from `src/lib.rs`: construction parameters. -/
structure Params where
  width : Nat
  height : Nat
  background_bgra : List Nat
  loop_count : Nat
  has_alpha : Bool
  deriving DecidableEq, Repr

/-- `struct WebPAnimator` from `src/lib.rs`: the builder state. -/
structure WebPAnimator where
  width : Nat
  height : Nat
  icc_profile : List Nat
  exif_metadata : List Nat
  xmp_metadata : List Nat
  frame_data : List Nat
  background_bgra : List Nat
  loop_count : Nat
  has_alpha : Bool
  deriving DecidableEq, Repr

/-- `fn u24_bytes(x: u32) -> [u8; 3]` from `src/lib.rs`:
`assert!(x >> 24 == 0)` then the three low little-endian bytes.
The assertion failure (a panic) is modelled as `none`. -/
def u24_bytes (x : Nat) : Option (List Nat) :=
  if x >>> 24 = 0 then
    some [x % 256, (x >>> 8) % 256, (x >>> 16) % 256]
  else
    none

/-- `u32::to_le_bytes` for a value already reduced `mod 2^32`. -/
def u32_le_bytes (x : Nat) : List Nat :=
  [x % 256, (x >>> 8) % 256, (x >>> 16) % 256, (x >>> 24) % 256]

/-- `u16::to_le_bytes`. -/
def u16_le_bytes (x : Nat) : List Nat :=
  [x % 256, (x >>> 8) % 256]

/-- The unchecked 3-byte little-endian encoding (what `u24_bytes` returns
when its assertion passes). -/
def u24_le (x : Nat) : List Nat :=
  [x % 256, (x >>> 8) % 256, (x >>> 16) % 256]

/-- The byte string `b"VP8L"`. -/
def vp8l_tag : List Nat := [86, 80, 56, 76]

/-- The byte string `b"VP8 "`. -/
def vp8space_tag : List Nat := [86, 80, 56, 32]

/-- `WebPAnimator::new` from `src/lib.rs`: validates the canvas
dimensions (each `≤ 0x1000000`, area nonzero and `< 2^32`; the area is
computed in `u64`, which is exact for `u32` factors) and builds the
initial state with empty buffers. -/
def WebPAnimator.new (params : Params) : Except EncodingError WebPAnimator :=
  if params.width > 0x1000000 ∨ params.height > 0x1000000 then
    .error .InvalidDimensions
  else
    let area := params.width * params.height
    if area = 0 ∨ area >>> 32 ≠ 0 then
      .error .InvalidDimensions
    else
      .ok { width := params.width
            height := params.height
            icc_profile := []
            exif_metadata := []
            xmp_metadata := []
            frame_data := []
            background_bgra := params.background_bgra
            loop_count := params.loop_count
            has_alpha := params.has_alpha }

/-- `WebPAnimator::set_icc_profile`. -/
def WebPAnimator.set_icc_profile (s : WebPAnimator) (v : List Nat) : WebPAnimator :=
  { s with icc_profile := v }

/-- `WebPAnimator::set_exif_metadata`. -/
def WebPAnimator.set_exif_metadata (s : WebPAnimator) (v : List Nat) : WebPAnimator :=
  { s with exif_metadata := v }

/-- `WebPAnimator::set_xmp_metadata`. -/
def WebPAnimator.set_xmp_metadata (s : WebPAnimator) (v : List Nat) : WebPAnimator :=
  { s with xmp_metadata := v }

/-- `WebPAnimator::add_webp_chunk` from `src/lib.rs`.

Result: `none` models a panic (the slice `data[..4]` when
`data.len() < 4`, or the `assert!` inside `u24_bytes`); otherwise
`some (r, s')` where `r` is the returned `Result` and `s'` the builder
state after the call (error returns happen before any buffer write, so
they carry the input state unchanged).

Faithful details: the tag check inspects `data[..4]`; the duration check
is `duration >> 24 != 0`; a missing rectangle defaults to the full
canvas at the origin; the rectangle check is exactly the source's
`x & 1 != 0 || y & 1 != 0 || x + width > self.width
|| x + height > self.height` with wrapping `u32` addition (note the
source compares `x + height`, not `y + height`, against the canvas
height); `width - 1` and `height - 1` are wrapping `u32` subtractions;
`chunk_len` is `data.len() + 16` truncated to `u32`. -/
def WebPAnimator.add_webp_chunk (s : WebPAnimator) (data : List Nat)
    (frame : Option FrameRect) (duration : Nat) :
    Option (Except EncodingError Unit × WebPAnimator) :=
  if data.length < 4 then
    none
  else if ¬ (data.take 4 = vp8l_tag ∨ data.take 4 = vp8space_tag) then
    some (.error .UnrecognizedImage, s)
  else if duration >>> 24 ≠ 0 then
    some (.error .InvalidDuration, s)
  else
    let fr := frame.getD ⟨0, 0, s.width, s.height⟩
    if fr.x % 2 ≠ 0 ∨ fr.y % 2 ≠ 0
        ∨ (fr.x + fr.width) % 4294967296 > s.width
        ∨ (fr.x + fr.height) % 4294967296 > s.height then
      some (.error .InvalidDimensions, s)
    else
      (u24_bytes (fr.x >>> 1)).bind fun bx =>
      (u24_bytes (fr.y >>> 1)).bind fun byy =>
      (u24_bytes ((fr.width + 4294967296 - 1) % 4294967296)).bind fun bw =>
      (u24_bytes ((fr.height + 4294967296 - 1) % 4294967296)).bind fun bh =>
      (u24_bytes duration).bind fun bd =>
      some (.ok (),
        { s with frame_data := s.frame_data
            ++ [65, 78, 77, 70]
            ++ u32_le_bytes ((data.length + 16) % 4294967296)
            ++ bx ++ byy ++ bw ++ bh ++ bd ++ [0] ++ data })

/-- `WebPAnimator::add_webp_image` from `src/lib.rs`: strips the 12-byte
simple-WebP header (`data[12..]`, a panic when `data.len() < 12`) and
delegates to `add_webp_chunk`. -/
def WebPAnimator.add_webp_image (s : WebPAnimator) (data : List Nat)
    (frame : Option FrameRect) (duration : Nat) :
    Option (Except EncodingError Unit × WebPAnimator) :=
  if data.length < 12 then
    none
  else
    s.add_webp_chunk (data.drop 12) frame duration

/-- `WEBP_HEADER_LEN` from `src/lib.rs`. -/
def WEBP_HEADER_LEN : Nat := 4

/-- `VP8X_HEADER_LEN` from `src/lib.rs`. -/
def VP8X_HEADER_LEN : Nat := 18

/-- `ANIM_HEADER_LEN` from `src/lib.rs`. -/
def ANIM_HEADER_LEN : Nat := 14

/-- `TOTAL_HEADER_LEN` from `src/lib.rs` (= 36). -/
def TOTAL_HEADER_LEN : Nat := WEBP_HEADER_LEN + VP8X_HEADER_LEN + ANIM_HEADER_LEN

/-- `WebPAnimator::write` from `src/lib.rs`: emits the full container.
The output sink is modelled as the produced byte list; `write` takes
`&mut self` in the source but only reads the fields, so the model
returns the state alongside the bytes (always the input state).
`none` models the panic of `u24_bytes` on `self.width - 1` /
`self.height - 1` (wrapping `u32` subtractions); the `size` field is
the `usize` sum truncated to `u32`. -/
def WebPAnimator.write (s : WebPAnimator) : Option (List Nat × WebPAnimator) :=
  (u24_bytes ((s.width + 4294967296 - 1) % 4294967296)).bind fun bw =>
  (u24_bytes ((s.height + 4294967296 - 1) % 4294967296)).bind fun bh =>
  let size := (TOTAL_HEADER_LEN + s.frame_data.length + s.icc_profile.length
    + s.exif_metadata.length + s.xmp_metadata.length) % 4294967296
  let icc_flag := if s.icc_profile ≠ [] then 0x20 else 0
  let alpha_flag := if s.has_alpha then 0x10 else 0
  let exif_flag := if s.exif_metadata ≠ [] then 0x8 else 0
  let xmp_flag := if s.xmp_metadata ≠ [] then 0x4 else 0
  let animation_flag := 0x2
  let flags := icc_flag ||| alpha_flag ||| exif_flag ||| xmp_flag ||| animation_flag
  some ([82, 73, 70, 70]
    ++ u32_le_bytes size
    ++ [87, 69, 66, 80, 86, 80, 56, 88]
    ++ u32_le_bytes 10
    ++ [flags]
    ++ [0, 0, 0]
    ++ bw ++ bh
    ++ s.icc_profile
    ++ [65, 78, 73, 77]
    ++ u32_le_bytes 6
    ++ s.background_bgra
    ++ u16_le_bytes (s.loop_count % 65536)
    ++ s.frame_data
    ++ s.exif_metadata
    ++ s.xmp_metadata, s)

/-- The 64×64 builder of the spec's concrete scenario (the state
`WebPAnimator::new` returns for canvas 64×64, background
`[255,255,255,255]`, loop count 0, alpha off). -/
def st0 : WebPAnimator :=
  { width := 64, height := 64, icc_profile := [], exif_metadata := [],
    xmp_metadata := [], frame_data := [], background_bgra := [255, 255, 255, 255],
    loop_count := 0, has_alpha := false }

/-- A 64×8 builder, used to exercise the frame-rectangle bounds check. -/
def st64x8 : WebPAnimator := { st0 with height := 8 }

/-- The byte sequence one accepted frame appends to the frame-chunk
buffer: `ANMF` tag, `u32` length field, 16-byte frame header, payload. -/
def anmf_chunk_bytes (fr : FrameRect) (dur : Nat) (data : List Nat) : List Nat :=
  [65, 78, 77, 70] ++ u32_le_bytes ((data.length + 16) % 4294967296)
    ++ u24_le (fr.x >>> 1) ++ u24_le (fr.y >>> 1)
    ++ u24_le (fr.width - 1) ++ u24_le (fr.height - 1)
    ++ u24_le dur ++ [0] ++ data

/-- The byte sequence `write` emits for a builder whose canvas
dimensions are in range (so that the `u24_bytes` assertions pass). -/
def container_bytes (s : WebPAnimator) : List Nat :=
  [82, 73, 70, 70]
    ++ u32_le_bytes ((TOTAL_HEADER_LEN + s.frame_data.length + s.icc_profile.length
      + s.exif_metadata.length + s.xmp_metadata.length) % 4294967296)
    ++ [87, 69, 66, 80, 86, 80, 56, 88]
    ++ u32_le_bytes 10
    ++ [(if s.icc_profile ≠ [] then 0x20 else 0) ||| (if s.has_alpha then 0x10 else 0)
      ||| (if s.exif_metadata ≠ [] then 0x8 else 0) ||| (if s.xmp_metadata ≠ [] then 0x4 else 0)
      ||| 0x2]
    ++ [0, 0, 0]
    ++ u24_le (s.width - 1) ++ u24_le (s.height - 1)
    ++ s.icc_profile
    ++ [65, 78, 73, 77]
    ++ u32_le_bytes 6
    ++ s.background_bgra
    ++ u16_le_bytes (s.loop_count % 65536)
    ++ s.frame_data
    ++ s.exif_metadata
    ++ s.xmp_metadata

/-- The full-canvas frame rectangle of the 64×64 scenario. -/
def full64 : FrameRect := ⟨0, 0, 64, 64⟩

/-- The 64×64 scenario builder with a given frame-chunk buffer. -/
def stFrames (l : List Nat) : WebPAnimator := { st0 with frame_data := l }

lemma shiftr_one (x : Nat) : x >>> 1 = x / 2 := by
  rw [Nat.shiftRight_eq_div_pow, pow_one]

lemma shiftr24_eq_zero (x : Nat) (h : x < 16777216) : x >>> 24 = 0 := by
  have h24 : (2 : Nat) ^ 24 = 16777216 := by norm_num
  rw [Nat.shiftRight_eq_div_pow, h24]; omega

lemma shiftr24_eq_zero_iff (x : Nat) : x >>> 24 = 0 ↔ x < 16777216 := by
  have h24 : (2 : Nat) ^ 24 = 16777216 := by norm_num
  rw [Nat.shiftRight_eq_div_pow, h24]; omega

lemma shiftr32_eq_zero_iff (x : Nat) : x >>> 32 = 0 ↔ x < 4294967296 := by
  have h32 : (2 : Nat) ^ 32 = 4294967296 := by norm_num
  rw [Nat.shiftRight_eq_div_pow, h32]; omega

lemma u24_bytes_of_lt (a : Nat) (h : a < 16777216) : u24_bytes a = some (u24_le a) := by
  unfold u24_bytes u24_le
  rw [if_pos (shiftr24_eq_zero a h)]

lemma tag_length (data : List Nat) (h : data.take 4 = vp8l_tag ∨ data.take 4 = vp8space_tag) :
    4 ≤ data.length := by
  rcases h with h | h <;>
  · have hl := congrArg List.length h
    simp [vp8l_tag, vp8space_tag] at hl
    omega

lemma wrap_sub_one (w : Nat) (h1 : 1 ≤ w) (h2 : w < 4294967296) :
    (w + 4294967296 - 1) % 4294967296 = w - 1 := by omega

lemma add_webp_chunk_ok (s : WebPAnimator) (data : List Nat) (fr : FrameRect) (dur : Nat)
    (htag : data.take 4 = vp8l_tag ∨ data.take 4 = vp8space_tag)
    (hdur : dur < 16777216)
    (hx : fr.x % 2 = 0) (hy : fr.y % 2 = 0)
    (hxw : fr.x + fr.width ≤ s.width) (hxh : fr.x + fr.height ≤ s.height)
    (hW : s.width ≤ 16777216) (hH : s.height ≤ 16777216)
    (hw1 : 1 ≤ fr.width) (hh1 : 1 ≤ fr.height) (hy2 : fr.y < 33554432) :
    s.add_webp_chunk data (some fr) dur
      = some (.ok (), { s with frame_data := s.frame_data ++ anmf_chunk_bytes fr dur data }) := by
  have hlen : 4 ≤ data.length := tag_length data htag
  have hd0 : dur >>> 24 = 0 := shiftr24_eq_zero dur hdur
  unfold WebPAnimator.add_webp_chunk
  simp only [Option.getD_some]
  rw [if_neg (by omega), if_neg (not_not_intro htag), if_neg (not_not_intro hd0),
    if_neg (by omega)]
  rw [wrap_sub_one fr.width hw1 (by omega), wrap_sub_one fr.height hh1 (by omega)]
  rw [u24_bytes_of_lt (fr.x >>> 1) (by rw [shiftr_one]; omega),
    u24_bytes_of_lt (fr.y >>> 1) (by rw [shiftr_one]; omega),
    u24_bytes_of_lt (fr.width - 1) (by omega),
    u24_bytes_of_lt (fr.height - 1) (by omega),
    u24_bytes_of_lt dur hdur]
  simp [anmf_chunk_bytes]

lemma add_webp_chunk_none_frame (s : WebPAnimator) (data : List Nat) (dur : Nat) :
    s.add_webp_chunk data none dur
      = s.add_webp_chunk data (some ⟨0, 0, s.width, s.height⟩) dur := by
  simp only [WebPAnimator.add_webp_chunk, Option.getD_none, Option.getD_some]

lemma anmf_chunk_bytes_length (fr : FrameRect) (dur : Nat) (data : List Nat) :
    (anmf_chunk_bytes fr dur data).length = 24 + data.length := by
  simp [anmf_chunk_bytes, u32_le_bytes, u24_le]
  omega

lemma write_ok (s : WebPAnimator) (hw : 1 ≤ s.width) (hW : s.width ≤ 16777216)
    (hh : 1 ≤ s.height) (hH : s.height ≤ 16777216) :
    s.write = some (container_bytes s, s) := by
  unfold WebPAnimator.write
  rw [wrap_sub_one s.width hw (by omega), wrap_sub_one s.height hh (by omega),
    u24_bytes_of_lt (s.width - 1) (by omega), u24_bytes_of_lt (s.height - 1) (by omega)]
  simp only [Option.some_bind, container_bytes, List.append_assoc]


lemma u24_bytes_eq_some (a : Nat) (b : List Nat) (h : u24_bytes a = some b) :
    b = u24_le a ∧ a < 16777216 := by
  unfold u24_bytes at h
  by_cases hc : a >>> 24 = 0
  · rw [if_pos hc] at h
    exact ⟨(Option.some.inj h).symm, (shiftr24_eq_zero_iff a).mp hc⟩
  · rw [if_neg hc] at h
    cases h

lemma add_webp_chunk_some_inv (s t : WebPAnimator) (data : List Nat)
    (frame : Option FrameRect) (dur : Nat) (r : Except EncodingError Unit)
    (h : s.add_webp_chunk data frame dur = some (r, t)) :
    ((∃ e, r = Except.error e) ∧ t = s)
    ∨ (r = Except.ok ()
      ∧ (frame.getD ⟨0, 0, s.width, s.height⟩).x >>> 1 < 16777216
      ∧ (frame.getD ⟨0, 0, s.width, s.height⟩).y >>> 1 < 16777216
      ∧ ((frame.getD ⟨0, 0, s.width, s.height⟩).width + 4294967296 - 1) % 4294967296 < 16777216
      ∧ ((frame.getD ⟨0, 0, s.width, s.height⟩).height + 4294967296 - 1) % 4294967296 < 16777216
      ∧ dur < 16777216
      ∧ t = { s with
              frame_data := s.frame_data
                ++ [65, 78, 77, 70]
                ++ u32_le_bytes ((data.length + 16) % 4294967296)
                ++ u24_le ((frame.getD ⟨0, 0, s.width, s.height⟩).x >>> 1)
                ++ u24_le ((frame.getD ⟨0, 0, s.width, s.height⟩).y >>> 1)
                ++ u24_le (((frame.getD ⟨0, 0, s.width, s.height⟩).width + 4294967296 - 1) % 4294967296)
                ++ u24_le (((frame.getD ⟨0, 0, s.width, s.height⟩).height + 4294967296 - 1) % 4294967296)
                ++ u24_le dur ++ [0] ++ data }) := by
  unfold WebPAnimator.add_webp_chunk at h
  simp only [] at h
  by_cases h1 : data.length < 4
  · rw [if_pos h1] at h
    exact Option.noConfusion h
  · rw [if_neg h1] at h
    by_cases h2 : ¬ (data.take 4 = vp8l_tag ∨ data.take 4 = vp8space_tag)
    · rw [if_pos h2] at h
      obtain ⟨hr, ht⟩ := Prod.ext_iff.mp (Option.some.inj h)
      exact Or.inl ⟨⟨_, hr.symm⟩, ht.symm⟩
    · rw [if_neg h2] at h
      by_cases h3 : dur >>> 24 ≠ 0
      · rw [if_pos h3] at h
        obtain ⟨hr, ht⟩ := Prod.ext_iff.mp (Option.some.inj h)
        exact Or.inl ⟨⟨_, hr.symm⟩, ht.symm⟩
      · rw [if_neg h3] at h
        by_cases h4 : (frame.getD ⟨0, 0, s.width, s.height⟩).x % 2 ≠ 0
            ∨ (frame.getD ⟨0, 0, s.width, s.height⟩).y % 2 ≠ 0
            ∨ ((frame.getD ⟨0, 0, s.width, s.height⟩).x
                + (frame.getD ⟨0, 0, s.width, s.height⟩).width) % 4294967296 > s.width
            ∨ ((frame.getD ⟨0, 0, s.width, s.height⟩).x
                + (frame.getD ⟨0, 0, s.width, s.height⟩).height) % 4294967296 > s.height
        · rw [if_pos h4] at h
          obtain ⟨hr, ht⟩ := Prod.ext_iff.mp (Option.some.inj h)
          exact Or.inl ⟨⟨_, hr.symm⟩, ht.symm⟩
        · rw [if_neg h4] at h
          rw [Option.bind_eq_some] at h
          obtain ⟨bx, hbx, h⟩ := h
          rw [Option.bind_eq_some] at h
          obtain ⟨byy, hby, h⟩ := h
          rw [Option.bind_eq_some] at h
          obtain ⟨bw, hbw, h⟩ := h
          rw [Option.bind_eq_some] at h
          obtain ⟨bh, hbh, h⟩ := h
          rw [Option.bind_eq_some] at h
          obtain ⟨bd, hbd, h⟩ := h
          obtain ⟨hbx1, hbx2⟩ := u24_bytes_eq_some _ _ hbx
          obtain ⟨hby1, hby2⟩ := u24_bytes_eq_some _ _ hby
          obtain ⟨hbw1, hbw2⟩ := u24_bytes_eq_some _ _ hbw
          obtain ⟨hbh1, hbh2⟩ := u24_bytes_eq_some _ _ hbh
          obtain ⟨hbd1, hbd2⟩ := u24_bytes_eq_some _ _ hbd
          subst hbx1 hby1 hbw1 hbh1 hbd1
          obtain ⟨hr, ht⟩ := Prod.ext_iff.mp (Option.some.inj h)
          exact Or.inr ⟨hr.symm, hbx2, hby2, hbw2, hbh2, hbd2, ht.symm⟩
/-- C4: every frame accepted by `add_webp_chunk` appends to the
frame-chunk buffer exactly the `ANMF` tag, a little-endian `u32` length
field `16 + payload.length`, the 24-bit little-endian fields
`x / 2`, `y / 2`, `width - 1`, `height - 1` and the duration, one zero
byte, and the payload verbatim.  (`width`, `height` and the payload
length are bounded as the `u32`/`usize → u32` cast of the source
requires.) -/
theorem c4_frame_chunk_layout (s s' : WebPAnimator) (data : List Nat) (fr : FrameRect)
    (dur : Nat) (hw32 : fr.width < 4294967296) (hh32 : fr.height < 4294967296)
    (hlen32 : data.length + 16 < 4294967296)
    (h : s.add_webp_chunk data (some fr) dur = some (Except.ok (), s')) :
    s'.frame_data = s.frame_data
      ++ [65, 78, 77, 70] ++ u32_le_bytes (16 + data.length)
      ++ u24_le (fr.x / 2) ++ u24_le (fr.y / 2)
      ++ u24_le (fr.width - 1) ++ u24_le (fr.height - 1)
      ++ u24_le dur ++ [0] ++ data := by
  rcases add_webp_chunk_some_inv s s' data (some fr) dur _ h with
    ⟨⟨e, he⟩, _⟩ | ⟨_, hx, hy, hw, hh, hd, ht⟩
  · exact absurd he (by simp)
  · simp only [Option.getD_some] at hw hh ht
    have hw' : (fr.width + 4294967296 - 1) % 4294967296 = fr.width - 1 := by omega
    have hh' : (fr.height + 4294967296 - 1) % 4294967296 = fr.height - 1 := by omega
    have hlen' : (data.length + 16) % 4294967296 = 16 + data.length := by omega
    rw [ht]
    simp only [hw', hh', hlen', shiftr_one]

/-- C4 witness: a concrete accepted frame exercising the layout theorem. -/
theorem c4_frame_chunk_layout_witness :
    ∃ s', st0.add_webp_chunk vp8l_tag (some ⟨0, 0, 64, 64⟩) 500 = some (Except.ok (), s')
      ∧ s'.frame_data = st0.frame_data
        ++ [65, 78, 77, 70] ++ u32_le_bytes (16 + vp8l_tag.length)
        ++ u24_le (0 / 2) ++ u24_le (0 / 2)
        ++ u24_le (64 - 1) ++ u24_le (64 - 1)
        ++ u24_le 500 ++ [0] ++ vp8l_tag :=
  ⟨_, rfl, c4_frame_chunk_layout st0 _ vp8l_tag ⟨0, 0, 64, 64⟩ 500
    (by decide) (by decide) (by decide) rfl⟩

/-- C5: every `add_webp_chunk` call that returns an error leaves the
builder state exactly as it was before the call. -/
theorem c5_error_leaves_state (s t : WebPAnimator) (data : List Nat)
    (frame : Option FrameRect) (dur : Nat) (e : EncodingError)
    (h : s.add_webp_chunk data frame dur = some (Except.error e, t)) : t = s := by
  rcases add_webp_chunk_some_inv s t data frame dur _ h with ⟨_, ht⟩ | ⟨hr, _⟩
  · exact ht
  · exact absurd hr (by simp)

/-- C5 witness: a concrete failing call (bad tag) leaving `st0` unchanged. -/
theorem c5_error_leaves_state_witness :
    st0.add_webp_chunk [0, 0, 0, 0] none 0 = some (Except.error EncodingError.UnrecognizedImage, st0)
    ∧ st0 = st0 :=
  ⟨rfl, c5_error_leaves_state st0 st0 [0, 0, 0, 0] none 0 EncodingError.UnrecognizedImage rfl⟩

/-- C9: `add_webp_chunk` panics (models to `none`) on every payload
shorter than 4 bytes, rather than returning `UnrecognizedImage`. -/
theorem c9_short_payload_panics (s : WebPAnimator) (data : List Nat)
    (frame : Option FrameRect) (dur : Nat) (h : data.length < 4) :
    s.add_webp_chunk data frame dur = none := by
  unfold WebPAnimator.add_webp_chunk
  rw [if_pos h]

/-- C9 witness: a 3-byte payload panics. -/
theorem c9_short_payload_panics_witness :
    [86, 80, 56].length < 4 ∧ st0.add_webp_chunk [86, 80, 56] none 500 = none :=
  ⟨by decide, c9_short_payload_panics st0 [86, 80, 56] none 500 (by decide)⟩

/-- C10: `add_webp_image` panics (models to `none`) on every input
shorter than 12 bytes, when slicing off the simple-WebP header. -/
theorem c10_short_image_panics (s : WebPAnimator) (data : List Nat)
    (frame : Option FrameRect) (dur : Nat) (h : data.length < 12) :
    s.add_webp_image data frame dur = none := by
  unfold WebPAnimator.add_webp_image
  rw [if_pos h]

/-- C10 witness: an 11-byte input panics. -/
theorem c10_short_image_panics_witness :
    [82, 73, 70, 70, 0, 0, 0, 0, 87, 69, 66].length < 12
    ∧ st0.add_webp_image [82, 73, 70, 70, 0, 0, 0, 0, 87, 69, 66] none 500 = none :=
  ⟨by decide, c10_short_image_panics st0 _ none 500 (by decide)⟩

/-- C1: the claim says a frame is rejected exactly when `x` is odd, `y` is
odd, `x + width > canvas width`, or `y + height > canvas height`.  The code
instead compares `x + height` against the canvas height
(`src/lib.rs:155`): on a 64×8 canvas it accepts a frame with
`y + height = 14 > 8`, and rejects a frame satisfying the claim's bounds
because `x + height > 8`.  The spec itself flags the intended invariant as
`y + height ≤ canvas height`, so this is a bug in the code. -/
theorem c1_height_bound_uses_x :
    WebPAnimator.new ⟨64, 8, [255, 255, 255, 255], 0, false⟩ = Except.ok st64x8
    ∧ (∃ s', st64x8.add_webp_chunk vp8l_tag (some ⟨0, 6, 64, 8⟩) 500
        = some (Except.ok (), s'))
    ∧ 6 + 8 > st64x8.height
    ∧ st64x8.add_webp_chunk vp8l_tag (some ⟨10, 0, 2, 8⟩) 500
        = some (Except.error EncodingError.InvalidDimensions, st64x8)
    ∧ 10 + 2 ≤ st64x8.width ∧ 0 + 8 ≤ st64x8.height :=
  ⟨rfl, ⟨_, rfl⟩, by decide, rfl, by decide, by decide⟩

/-- C2 counterexample: the claim says every `u24_bytes` call reachable
through validated `add_webp_chunk` arguments encodes a value
`< 0x1000000`.  But `y` is only checked for evenness (the vertical bound
check uses `x`, not `y`), so `y = 2^26` passes validation and
`u24_bytes (y >> 1)` is called on `2^25`, firing the assertion (modelled
as `none`). -/
theorem c2_assert_reachable :
    st0.add_webp_chunk vp8l_tag (some ⟨0, 67108864, 64, 64⟩) 500 = none
    ∧ u24_bytes (67108864 >>> 1) = none :=
  ⟨rfl, rfl⟩

/-- C2 (amended): for a builder with canvas bounds as `new` guarantees,
an `add_webp_chunk` call that passes validation and additionally has
`width ≥ 1`, `height ≥ 1`, `y < 2^25`, and non-overflowing
`x + width` / `x + height` sums succeeds: every value handed to
`u24_bytes` is in range, and the subsequent `write` also encodes only
in-range values. -/
theorem c2_u24_in_range (s : WebPAnimator) (data : List Nat) (fr : FrameRect) (dur : Nat)
    (hw0 : 1 ≤ s.width) (hW : s.width ≤ 16777216)
    (hh0 : 1 ≤ s.height) (hH : s.height ≤ 16777216)
    (htag : data.take 4 = vp8l_tag ∨ data.take 4 = vp8space_tag)
    (hdur : dur < 16777216)
    (hx : fr.x % 2 = 0) (hy : fr.y % 2 = 0)
    (hxw : fr.x + fr.width ≤ s.width) (hxh : fr.x + fr.height ≤ s.height)
    (hw1 : 1 ≤ fr.width) (hh1 : 1 ≤ fr.height) (hy2 : fr.y < 33554432) :
    ∃ s', s.add_webp_chunk data (some fr) dur = some (Except.ok (), s')
      ∧ ∃ out, s'.write = some (out, s') := by
  refine ⟨_, add_webp_chunk_ok s data fr dur htag hdur hx hy hxw hxh hW hH hw1 hh1 hy2, ?_⟩
  exact ⟨_, write_ok _ hw0 hW hh0 hH⟩

/-- C2 witness: a concrete in-range frame on the 64×64 builder. -/
theorem c2_u24_in_range_witness :
    ∃ s', st0.add_webp_chunk vp8l_tag (some ⟨0, 0, 64, 64⟩) 500 = some (Except.ok (), s')
      ∧ ∃ out, s'.write = some (out, s') :=
  c2_u24_in_range st0 vp8l_tag ⟨0, 0, 64, 64⟩ 500 (by decide) (by decide) (by decide)
    (by decide) (Or.inl rfl) (by norm_num) rfl rfl (by decide) (by decide) (by decide)
    (by decide) (by decide)

/-- C6: `new` succeeds exactly on canvases with both dimensions in
`(0, 0x1000000]` and area `< 2^32`, and fails with `InvalidDimensions`
whenever a dimension exceeds `0x1000000`, the area reaches `2^32`, or a
dimension is zero. -/
theorem c6_new_validation (p : Params) :
    (0 < p.width ∧ p.width ≤ 16777216 ∧ 0 < p.height ∧ p.height ≤ 16777216
        ∧ p.width * p.height < 4294967296 →
      WebPAnimator.new p = Except.ok
        { width := p.width, height := p.height, icc_profile := [],
          exif_metadata := [], xmp_metadata := [], frame_data := [],
          background_bgra := p.background_bgra, loop_count := p.loop_count,
          has_alpha := p.has_alpha })
    ∧ ((16777216 < p.width ∨ 16777216 < p.height ∨ 4294967296 ≤ p.width * p.height
        ∨ p.width = 0 ∨ p.height = 0) →
      WebPAnimator.new p = Except.error EncodingError.InvalidDimensions) := by
  constructor
  · rintro ⟨h1, h2, h3, h4, h5⟩
    unfold WebPAnimator.new
    simp only []
    have hc : ¬ (p.width * p.height = 0 ∨ (p.width * p.height) >>> 32 ≠ 0) := by
      push_neg
      exact ⟨(Nat.mul_pos h1 h3).ne', (shiftr32_eq_zero_iff _).mpr h5⟩
    rw [if_neg (by omega), if_neg hc]
  · intro h
    unfold WebPAnimator.new
    simp only []
    by_cases hc : p.width > 0x1000000 ∨ p.height > 0x1000000
    · rw [if_pos hc]
    · push_neg at hc
      have hcond : p.width * p.height = 0 ∨ (p.width * p.height) >>> 32 ≠ 0 := by
        rcases h with h | h | h | h | h
        · exact absurd h (by omega)
        · exact absurd h (by omega)
        · exact Or.inr (fun hz => absurd ((shiftr32_eq_zero_iff _).mp hz) (by omega))
        · exact Or.inl (by rw [h, Nat.zero_mul])
        · exact Or.inl (by rw [h, Nat.mul_zero])
      rw [if_neg (by omega), if_pos hcond]

/-- C6 witness: a valid and an invalid canvas. -/
theorem c6_new_validation_witness :
    WebPAnimator.new ⟨64, 64, [1, 2, 3, 4], 5, true⟩ = Except.ok
      { width := 64, height := 64, icc_profile := [],
        exif_metadata := [], xmp_metadata := [], frame_data := [],
        background_bgra := [1, 2, 3, 4], loop_count := 5, has_alpha := true }
    ∧ WebPAnimator.new ⟨0, 64, [1, 2, 3, 4], 5, true⟩
      = Except.error EncodingError.InvalidDimensions :=
  ⟨(c6_new_validation ⟨64, 64, [1, 2, 3, 4], 5, true⟩).1 (by decide),
   (c6_new_validation ⟨0, 64, [1, 2, 3, 4], 5, true⟩).2 (by decide)⟩

/-- C7 counterexample: the claim says an odd `x` fails with
`InvalidDimensions` regardless of the payload tag, but the tag check runs
first: with an odd `x` and an unrecognized tag the call returns
`UnrecognizedImage`, not `InvalidDimensions`. -/
theorem c7_tag_checked_before_rect :
    st0.add_webp_chunk [88, 88, 88, 88] (some ⟨1, 0, 2, 2⟩) 0
      = some (Except.error EncodingError.UnrecognizedImage, st0)
    ∧ (1 : Nat) % 2 ≠ 0
    ∧ EncodingError.UnrecognizedImage ≠ EncodingError.InvalidDimensions :=
  ⟨rfl, by decide, by decide⟩

/-- C7 (amended): once the payload tag and duration checks pass, a frame
rectangle with odd `x` or odd `y` always fails with `InvalidDimensions`,
regardless of the remaining rectangle fields. -/
theorem c7_odd_offset_rejected (s : WebPAnimator) (data : List Nat) (fr : FrameRect)
    (dur : Nat)
    (htag : data.take 4 = vp8l_tag ∨ data.take 4 = vp8space_tag)
    (hdur : dur < 16777216)
    (hodd : fr.x % 2 ≠ 0 ∨ fr.y % 2 ≠ 0) :
    s.add_webp_chunk data (some fr) dur
      = some (Except.error EncodingError.InvalidDimensions, s) := by
  have hlen : 4 ≤ data.length := tag_length data htag
  have hd0 : dur >>> 24 = 0 := shiftr24_eq_zero dur hdur
  unfold WebPAnimator.add_webp_chunk
  simp only [Option.getD_some]
  rw [if_neg (by omega), if_neg (not_not_intro htag), if_neg (not_not_intro hd0),
    if_pos (by rcases hodd with h | h
               · exact Or.inl h
               · exact Or.inr (Or.inl h))]

/-- C7 witness: odd `x` with huge width still gives `InvalidDimensions`. -/
theorem c7_odd_offset_rejected_witness :
    st0.add_webp_chunk vp8l_tag (some ⟨1, 0, 5000000000, 5000000000⟩) 500
      = some (Except.error EncodingError.InvalidDimensions, st0) :=
  c7_odd_offset_rejected st0 vp8l_tag ⟨1, 0, 5000000000, 5000000000⟩ 500
    (Or.inl rfl) (by norm_num) (Or.inl (by decide))

/-- C8: `write` never changes the builder, and calling it again on the
same builder yields the identical byte output. -/
theorem c8_write_idempotent (s t : WebPAnimator) (out : List Nat)
    (h : s.write = some (out, t)) : t = s ∧ t.write = some (out, t) := by
  have h0 := h
  unfold WebPAnimator.write at h
  rw [Option.bind_eq_some] at h
  obtain ⟨bw, hbw, h⟩ := h
  rw [Option.bind_eq_some] at h
  obtain ⟨bh, hbh, h⟩ := h
  simp only [] at h
  obtain ⟨hout, ht⟩ := Prod.ext_iff.mp (Option.some.inj h)
  subst ht
  exact ⟨rfl, h0⟩

/-- C8 witness: `write` on the 64×64 builder, twice. -/
theorem c8_write_idempotent_witness :
    ∃ out t, st0.write = some (out, t) ∧ t = st0 ∧ t.write = some (out, t) :=
  ⟨_, _, rfl, c8_write_idempotent st0 _ _ rfl⟩

lemma container_size_field (s : WebPAnimator) :
    ((container_bytes s).drop 4).take 4
      = u32_le_bytes ((TOTAL_HEADER_LEN + s.frame_data.length + s.icc_profile.length
        + s.exif_metadata.length + s.xmp_metadata.length) % 4294967296) := by
  simp only [container_bytes, List.append_assoc, List.cons_append, List.nil_append]
  simp [u32_le_bytes]

/-- C3 counterexample: in the spec's concrete scenario with two accepted
4-byte payloads (`payload_len = 4`), the outer size field is
`u32_le_bytes 92`, not `26 + 2 * (16 + 4) + 8 = 74` as the claim's
formula predicts: the formula omits the 8-byte `ANMF` chunk header of
each frame and miscounts the fixed headers. -/
theorem c3_size_formula_counterexample :
    WebPAnimator.new ⟨64, 64, [255, 255, 255, 255], 0, false⟩ = Except.ok st0
    ∧ st0.add_webp_chunk vp8l_tag none 500
      = some (Except.ok (), stFrames (anmf_chunk_bytes full64 500 vp8l_tag))
    ∧ (stFrames (anmf_chunk_bytes full64 500 vp8l_tag)).add_webp_chunk vp8l_tag none 500
      = some (Except.ok (), stFrames (anmf_chunk_bytes full64 500 vp8l_tag
          ++ anmf_chunk_bytes full64 500 vp8l_tag))
    ∧ (stFrames (anmf_chunk_bytes full64 500 vp8l_tag
        ++ anmf_chunk_bytes full64 500 vp8l_tag)).write
      = some (container_bytes (stFrames (anmf_chunk_bytes full64 500 vp8l_tag
          ++ anmf_chunk_bytes full64 500 vp8l_tag)),
        stFrames (anmf_chunk_bytes full64 500 vp8l_tag
          ++ anmf_chunk_bytes full64 500 vp8l_tag))
    ∧ ((container_bytes (stFrames (anmf_chunk_bytes full64 500 vp8l_tag
        ++ anmf_chunk_bytes full64 500 vp8l_tag))).drop 4).take 4
      ≠ u32_le_bytes (26 + 2 * (16 + vp8l_tag.length) + 8) := by
  have e1 : st0.add_webp_chunk vp8l_tag none 500
      = some (Except.ok (), stFrames (anmf_chunk_bytes full64 500 vp8l_tag)) := by
    rw [add_webp_chunk_none_frame]
    exact add_webp_chunk_ok st0 vp8l_tag full64 500 (Or.inl rfl)
      (by norm_num) rfl rfl (by decide) (by decide) (by decide) (by decide) (by decide)
      (by decide) (by decide)
  have e2 : (stFrames (anmf_chunk_bytes full64 500 vp8l_tag)).add_webp_chunk vp8l_tag none 500
      = some (Except.ok (), stFrames (anmf_chunk_bytes full64 500 vp8l_tag
          ++ anmf_chunk_bytes full64 500 vp8l_tag)) := by
    rw [add_webp_chunk_none_frame]
    exact add_webp_chunk_ok _ vp8l_tag full64 500 (Or.inl rfl)
      (by norm_num) rfl rfl (by decide : full64.x + full64.width ≤ 64)
      (by decide : full64.x + full64.height ≤ 64) (by decide : (64 : Nat) ≤ 16777216)
      (by decide : (64 : Nat) ≤ 16777216) (by decide : 1 ≤ full64.width)
      (by decide : 1 ≤ full64.height) (by decide : full64.y < 33554432)
  refine ⟨rfl, e1, e2, write_ok _ (by decide : (1 : Nat) ≤ 64)
    (by decide : (64 : Nat) ≤ 16777216) (by decide : (1 : Nat) ≤ 64)
    (by decide : (64 : Nat) ≤ 16777216), by decide⟩

/-- C3 (amended): in the concrete scenario — canvas 64×64, background
`[255,255,255,255]`, loop count 0, alpha off, no metadata, two accepted
full-canvas frames of 500 ms with payloads of length `payload_len` —
the outer 4-byte size field equals `36 + 2 * (24 + payload_len)`:
4 (`WEBP` tag) + 18 (`VP8X` chunk) + 14 (`ANIM` chunk) plus, per frame,
an 8-byte `ANMF` chunk header, the 16-byte frame header, and the
payload. -/
theorem c3_size_field (p1 p2 : List Nat) (L : Nat)
    (h1 : p1.take 4 = vp8l_tag ∨ p1.take 4 = vp8space_tag)
    (h2 : p2.take 4 = vp8l_tag ∨ p2.take 4 = vp8space_tag)
    (hL1 : p1.length = L) (hL2 : p2.length = L)
    (hsmall : 36 + 2 * (24 + L) < 4294967296) :
    ∃ s1 s2 out,
      WebPAnimator.new ⟨64, 64, [255, 255, 255, 255], 0, false⟩ = Except.ok st0
      ∧ st0.add_webp_chunk p1 none 500 = some (Except.ok (), s1)
      ∧ s1.add_webp_chunk p2 none 500 = some (Except.ok (), s2)
      ∧ s2.write = some (out, s2)
      ∧ (out.drop 4).take 4 = u32_le_bytes (36 + 2 * (24 + L)) := by
  have e1 : st0.add_webp_chunk p1 none 500
      = some (Except.ok (), stFrames (anmf_chunk_bytes full64 500 p1)) := by
    rw [add_webp_chunk_none_frame]
    exact add_webp_chunk_ok st0 p1 full64 500 h1
      (by norm_num) rfl rfl (by decide) (by decide) (by decide) (by decide) (by decide)
      (by decide) (by decide)
  have e2 : (stFrames (anmf_chunk_bytes full64 500 p1)).add_webp_chunk p2 none 500
      = some (Except.ok (), stFrames (anmf_chunk_bytes full64 500 p1
          ++ anmf_chunk_bytes full64 500 p2)) := by
    rw [add_webp_chunk_none_frame]
    exact add_webp_chunk_ok _ p2 full64 500 h2
      (by norm_num) rfl rfl (by decide : full64.x + full64.width ≤ 64)
      (by decide : full64.x + full64.height ≤ 64) (by decide : (64 : Nat) ≤ 16777216)
      (by decide : (64 : Nat) ≤ 16777216) (by decide : 1 ≤ full64.width)
      (by decide : 1 ≤ full64.height) (by decide : full64.y < 33554432)
  have e3 : (stFrames (anmf_chunk_bytes full64 500 p1
        ++ anmf_chunk_bytes full64 500 p2)).write
      = some (container_bytes (stFrames (anmf_chunk_bytes full64 500 p1
          ++ anmf_chunk_bytes full64 500 p2)),
        stFrames (anmf_chunk_bytes full64 500 p1
          ++ anmf_chunk_bytes full64 500 p2)) :=
    write_ok _ (by decide : (1 : Nat) ≤ 64) (by decide : (64 : Nat) ≤ 16777216)
      (by decide : (1 : Nat) ≤ 64) (by decide : (64 : Nat) ≤ 16777216)
  refine ⟨_, _, _, rfl, e1, e2, e3, ?_⟩
  rw [container_size_field]
  refine congrArg u32_le_bytes ?_
  simp only [stFrames, st0, List.length_append, anmf_chunk_bytes_length, List.length_nil,
    TOTAL_HEADER_LEN, WEBP_HEADER_LEN, VP8X_HEADER_LEN, ANIM_HEADER_LEN, hL1, hL2]
  omega

/-- C3 witness: the amended size formula at `payload_len = 4`. -/
theorem c3_size_field_witness :
    ∃ s1 s2 out,
      WebPAnimator.new ⟨64, 64, [255, 255, 255, 255], 0, false⟩ = Except.ok st0
      ∧ st0.add_webp_chunk vp8space_tag none 500 = some (Except.ok (), s1)
      ∧ s1.add_webp_chunk vp8space_tag none 500 = some (Except.ok (), s2)
      ∧ s2.write = some (out, s2)
      ∧ (out.drop 4).take 4 = u32_le_bytes (36 + 2 * (24 + 4)) :=
  c3_size_field vp8space_tag vp8space_tag 4 (Or.inr rfl) (Or.inr rfl) rfl rfl (by norm_num)
